import Mathlib

/-!
Verification development for the IoT end-to-end cloud backend.

Shallow embedding of the decision and aggregation logic of the five Lambda
handlers (`data_stream_error_check`, `data_stream_two_week_writer`,
`data_stream_ota_sync`, `notify_customer_check`, `emailer`).  Numbers carried
by readings are modelled as exact rationals; DynamoDB items are modelled as
association lists or records of the attributes the code reads; external
collaborators (S3, SES, SQS, Cognito) appear as outcome parameters.
-/

deriving instance DecidableEq for Except

namespace IoTCloud

attribute [local semireducible] Rat.mul Rat.add Rat.sub Rat.inv

/-! ## Python value semantics

The handlers rely on a handful of Python-specific behaviours that the
embedding must reproduce exactly:

* `x in range(lo, hi)` for a float `x` is true iff `x` is an *integral*
  value with `lo ≤ x < hi` (a non-integral float is never an element of a
  `range`, whatever the bounds);
* `int(x)` truncates toward zero;
* `len(d)` of a DynamoDB attribute-value dict such as `{'S': ''}` is the
  number of keys (1), not the length of the carried string;
* `s.strip(c)` removes the character `c` from both ends of `s`.
-/

/-- Membership test `x in range(lo, hi)` for a Python number `x`, modelled as
an exact rational: true iff `x` is integral and `lo ≤ x < hi`. -/
def pyRangeContains (lo hi : Int) (x : ℚ) : Bool :=
  x.den == 1 && decide (lo ≤ x.num) && decide (x.num < hi)

/-- Python `int(x)`: truncation toward zero.  For `x = num/den` with
`den > 0` this is exactly t-division of the numerator by the denominator. -/
def pyInt (x : ℚ) : Int :=
  Int.tdiv x.num x.den

/-- Python `s.strip(c)`: remove every leading and trailing occurrence of the
character `c`. -/
def pyStrip (s : String) (c : Char) : String :=
  String.mk (((s.toList.dropWhile (· == c)).reverse.dropWhile (· == c)).reverse)

/-- Python `s.split(sep)` for a single-character separator, over the
character list. -/
def splitOnChar (sep : Char) : List Char → List (List Char)
  | [] => [[]]
  | c :: rest =>
    match splitOnChar sep rest with
    | [] => if c == sep then [[], []] else [[c]]
    | g :: gs => if c == sep then [] :: g :: gs else (c :: g) :: gs

/-- Python `s.split(sep)` returning strings. -/
def pySplit (s : String) (sep : Char) : List String :=
  (splitOnChar sep s.toList).map String.mk

/-! ## `data_stream_error_check/app.py` -/

/-- Sensor bounds; the source reads them from `constants` (lower inclusive,
upper exclusive, integer-valued since they are passed to `range`). -/
structure Limits where
  lowerTemp : Int
  upperTemp : Int
  lowerHum : Int
  upperHum : Int
deriving DecidableEq, Repr

/-- The `temp`/`hum` payload of an incoming reading (`event['temp']`,
`event['hum']`). -/
structure ReadingEvent where
  temp : ℚ
  hum : ℚ
deriving DecidableEq, Repr

/-- `check_for_errors` (error-check handler, lines 108-139): a reading is
inside limits iff `event['temp'] in range(LOWER_TEMP_LIMIT, UPPER_TEMP_LIMIT)`
and `event['hum'] in range(LOWER_HUM_LIMIT, UPPER_HUM_LIMIT)`.  Returns the
pair `(error, msg)`. -/
def check_for_errors (L : Limits) (event : ReadingEvent) : Bool × String :=
  let inside_limits :=
    pyRangeContains L.lowerTemp L.upperTemp event.temp &&
    pyRangeContains L.lowerHum L.upperHum event.hum
  let msg := if inside_limits then "" else "An error occurred with a sensor"
  (!inside_limits, msg)

/-- Python runtime errors that the handlers can raise. -/
inductive PyError
  | keyError (key : String)
  | indexError
  | typeError
  | clientError
deriving DecidableEq, Repr

/-- An item of the user-device mapping table, as returned by a DynamoDB
query: an attribute map.  Attribute access `item['k']` is association-list
lookup and raises `KeyError` when absent. -/
structure MappingItem where
  attrs : List (String × String)
deriving DecidableEq, Repr

/-- `get_user_mapping_by_device_id`: query the `DeviceIndex` for the given
device id and return the first item, if any. -/
def get_user_mapping_by_device_id (table : List MappingItem) (device_id : String) :
    Option MappingItem :=
  (table.filter (fun m => m.attrs.lookup "deviceID" == some device_id)).head?

/-- A write performed by `set_error_message_by_cognito_id`: set `error_msg`
to `msg` on the item keyed by `(userID, deviceID)`. -/
structure ErrorMsgWrite where
  userID : String
  deviceID : String
  msg : String
deriving DecidableEq, Repr

/-- `lambda_handler` of the error-check function: parse the device id from
the topic, and when both `temp` and `hum` are present run `check_for_errors`;
on error with a mapped user write the message via
`set_error_message_by_cognito_id(user_mapping['userID'],
user_mapping['device_id'], error_msg)` — note the source reads the key
`'device_id'`; on a valid reading clear a non-empty existing `error_msg`
(source reads `'deviceID'` there).  Returns the list of mapping-table writes
or the Python error raised. -/
def error_check_lambda_handler (L : Limits) (table : List MappingItem)
    (topic : String) (temp hum : Option ℚ) : Except PyError (List ErrorMsgWrite) :=
  match (pySplit topic (Char.ofNat 47)).get? 3 with
  | none => .error .indexError
  | some device_id =>
    match temp, hum with
    | some t, some h =>
      let res := check_for_errors L ⟨t, h⟩
      let user_mapping := get_user_mapping_by_device_id table device_id
      if res.1 then
        match user_mapping with
        | some m =>
          match m.attrs.lookup "userID" with
          | none => .error (.keyError "userID")
          | some uid =>
            match m.attrs.lookup "device_id" with
            | none => .error (.keyError "device_id")
            | some did => .ok [⟨uid, did, res.2⟩]
        | none => .ok []
      else
        match user_mapping with
        | some m =>
          match m.attrs.lookup "error_msg" with
          | some cur =>
            if cur ≠ "" then
              match m.attrs.lookup "userID" with
              | none => .error (.keyError "userID")
              | some uid =>
                match m.attrs.lookup "deviceID" with
                | none => .error (.keyError "deviceID")
                | some did => .ok [⟨uid, did, ""⟩]
            else .ok []
          | none => .ok []
        | none => .ok []
    | _, _ => .ok []

/-! ## `data_stream_two_week_writer/app.py` -/

/-- A row of the sensor-data table for one device partition: sort key
`timestamp` plus the sensor payload.  The IoT rule writes each incoming
message straight into this table. -/
structure StoredReading where
  timestamp : Int
  temp : ℚ
  hum : ℚ
deriving DecidableEq, Repr

/-- A DynamoDB `query` on a single device partition with
`ScanIndexForward=False` and a `Limit`: the partition is stored in ascending
sort-key order, so the query walks the condition-matching items in reverse
and returns at most `limit` of them. -/
def queryDesc (store : List StoredReading) (cond : StoredReading → Bool)
    (limit : Nat) : List StoredReading :=
  ((store.filter cond).reverse).take limit

/-- `get_previous_sensor_data`: the most recent stored reading with
`timestamp < ts` (key condition `Key('timestamp').lt(timestamp)`, descending,
`Limit=1`); `none` models the empty-dict result. -/
def get_previous_sensor_data (store : List StoredReading) (ts : Int) :
    Option StoredReading :=
  (queryDesc store (fun r => decide (r.timestamp < ts)) 1).head?

/-- `get_last_hour_of_sensor_data`: key condition
`Key('timestamp').between(start_time, end_time)` — DynamoDB `between` is
inclusive at both ends — descending, `Limit=60`. -/
def get_last_hour_of_sensor_data (store : List StoredReading)
    (start_time end_time : Int) : List StoredReading :=
  queryDesc store
    (fun r => decide (start_time ≤ r.timestamp) && decide (r.timestamp ≤ end_time)) 60

/-- Python `point['x'] in range(lo, hi)` after `int(...)` truncation, the
per-point test of `calculate_average_from_set` (lines 225-232). -/
def calc_inside_limits (L : Limits) (p : ReadingEvent) : Bool :=
  (decide (L.lowerTemp ≤ pyInt p.temp) && decide (pyInt p.temp < L.upperTemp)) &&
  (decide (L.lowerHum ≤ pyInt p.hum) && decide (pyInt p.hum < L.upperHum))

/-- `calculate_average_from_set`: sum temperature and humidity over the
points passing `calc_inside_limits`, divide by the count; an empty valid
subset yields the empty dict, modelled as `none`. -/
def calculate_average_from_set (L : Limits) (data_set : List ReadingEvent) :
    Option ReadingEvent :=
  let valid := data_set.filter (calc_inside_limits L)
  if 0 < valid.length then
    some ⟨((valid.map (·.temp)).sum) / (valid.length : ℚ),
          ((valid.map (·.hum)).sum) / (valid.length : ℚ)⟩
  else none

/-- `round_time_down_to_hour`: the current epoch time with minutes, seconds
and microseconds zeroed, i.e. floor division by 3600 scaled back. -/
def round_time_down_to_hour (now : Int) : Int :=
  Int.fdiv now 3600 * 3600

/-- Python round-half-to-even of a rational to an integer: Python `round`
and `decimal` `ROUND_HALF_EVEN` both use it. -/
def roundHalfEven (x : ℚ) : Int :=
  let f := x.floor
  let frac := x - (f : ℚ)
  if frac < 1/2 then f
  else if 1/2 < frac then f + 1
  else if f % 2 = 0 then f else f + 1

/-- `Decimal(x).quantize(Decimal(0.01))` with the default `ROUND_HALF_EVEN`:
the nearest multiple of 1/100, ties to even. -/
def quantize2dp (x : ℚ) : ℚ :=
  (roundHalfEven (100 * x) : ℚ) / 100

/-- The item `write_two_week_data` puts into the two-week table. -/
structure TwoWeekItem where
  timestamp : Int
  temp : ℚ
  hum : Int
  expiretimestamp : Int
deriving DecidableEq, Repr

/-- `write_two_week_data`: bucket timestamp is the *current* time rounded
down to the hour, temperature is quantized to 2 decimal places, humidity is
`int(round(...))`, expiry is the bucket timestamp plus `14 * 24 * 60 * 60`
seconds. -/
def write_two_week_data (now : Int) (summary : ReadingEvent) : TwoWeekItem :=
  let timestamp := round_time_down_to_hour now
  { timestamp := timestamp
    temp := quantize2dp summary.temp
    hum := roundHalfEven summary.hum
    expiretimestamp := timestamp + 14 * 24 * 60 * 60 }

/-- `two_week_update_check` up to the point where a rollup is attempted:
fetch the previous point; if it exists and the incoming hour bucket is
strictly later, fetch the previous point's hour of data.  `none` means no
rollup was attempted; `some hour_of_data` means exactly one rollup attempt
was made over the fetched set. -/
def two_week_update_check (store : List StoredReading) (ts : Int) :
    Option (List StoredReading) :=
  match get_previous_sensor_data store ts with
  | none => none
  | some last_data_point =>
    let hour_cur := Int.fdiv ts 3600
    let hour_prev := Int.fdiv last_data_point.timestamp 3600
    if hour_prev < hour_cur then
      let prev_hour_start := hour_prev * 3600
      let prev_hour_end := prev_hour_start + 3600
      some (get_last_hour_of_sensor_data store prev_hour_start prev_hour_end)
    else none

/-- The full data path of `two_week_update_check`: the rollup attempt
followed by `calculate_average_from_set` and, when the summary is non-empty,
`write_two_week_data` at the current time. -/
def two_week_rollup (L : Limits) (store : List StoredReading) (ts now : Int) :
    Option TwoWeekItem :=
  match two_week_update_check store ts with
  | none => none
  | some hour_of_data =>
    match calculate_average_from_set L (hour_of_data.map (fun r => ⟨r.temp, r.hum⟩)) with
    | none => none
    | some summary => some (write_two_week_data now summary)

/-! ## `notify_customer_check/app.py` -/

/-- The Python values the notifier compares: `old_msg` starts as the string
`''` and is reassigned to the attribute-value dict `{'S': s}` when the old
image carries `error_msg`; `new_msg` is always such a dict when present. -/
inductive PyVal
  | str (s : String)
  | attrDict (s : String)
deriving DecidableEq, Repr

/-- Python `len`: string length for a string, number of keys (1) for an
attribute-value dict `{'S': s}`. -/
def pyLen : PyVal → Nat
  | .str s => s.length
  | .attrDict _ => 1

/-- Python `==` between the values in play: a string never equals a dict;
two attribute dicts are equal iff their carried strings are. -/
def pyEq : PyVal → PyVal → Bool
  | .str a, .str b => a == b
  | .attrDict a, .attrDict b => a == b
  | _, _ => false

/-- One DynamoDB stream record as the notifier reads it: the event name, the
optional `error_msg` string attribute of the old and new images, and the
`userID` key attribute of the new image. -/
structure StreamRecord where
  eventName : String
  oldErrorMsg : Option String
  newErrorMsg : Option String
  newUserID : String
deriving DecidableEq, Repr

/-- The body of the notifier `lambda_handler` applied to `Records[0]`:
returns the list of cognito ids sent to the emailer queue.  Mirrors lines
179-195: only `MODIFY` events, only when `error_msg` is in the new image;
`old_msg`/`new_msg` are the raw attribute dicts, compared and length-tested
as Python values. -/
def notify_record_emits (r : StreamRecord) : List String :=
  if r.eventName == "MODIFY" then
    match r.newErrorMsg with
    | none => []
    | some newS =>
      let old_msg : PyVal :=
        match r.oldErrorMsg with
        | some s => .attrDict s
        | none => .str ""
      let new_msg : PyVal := .attrDict newS
      if 0 < pyLen new_msg then
        if pyEq old_msg new_msg then [] else [r.newUserID]
      else []
  else []

/-- The notifier `lambda_handler` on the whole event: it reads
`event['Records'][0]` only (an empty record list raises `IndexError`). -/
def notify_lambda_handler (records : List StreamRecord) :
    Except PyError (List String) :=
  match records with
  | [] => .error .indexError
  | r :: _ => .ok (notify_record_emits r)

/-! ## `data_stream_ota_sync/app.py` -/

/-- An instruction published to the per-device command topic: either an OTA
carrying a presigned URL valid for `expiresIn` seconds, or a time sync
carrying the current epoch seconds. -/
inductive Instruction
  | ota (expiresIn : Nat)
  | timeSync (now : Int)
deriving DecidableEq, Repr

/-- `get_latest_version`: the version file contents with `'\n'` stripped
from both ends, then `'\r'` stripped from both ends. -/
def get_latest_version (raw : String) : String :=
  pyStrip (pyStrip raw (Char.ofNat 10)) (Char.ofNat 13)

/-- `set_device_version_message_by_cognito_id`: the update request uses
`UpdateExpression "set error_msg = :error_msg"` while supplying only the
value `:version`, so DynamoDB rejects it (the referenced expression value is
undefined); and it targets `error_msg`, not `last_reported_version`. -/
def set_device_version_message_by_cognito_id (_cognito_id _device_id _version : String) :
    Except PyError Unit :=
  .error .clientError

/-- The OTA-sync `lambda_handler` on a version report: returns the list of
instructions published before the invocation ends, the list of
`(user, device, version)` records actually persisted, and the Python error
that aborted the invocation, if any.  On a version mismatch it publishes one
OTA with a 300-second credential; on a match it publishes one time sync and
then calls `get_user_mapping_by_device_id()` with no argument, which raises
`TypeError` before any persistence can happen. -/
def ota_lambda_handler (rawTarget : String) (now : Int) (version : Option String) :
    (List Instruction × List (String × String × String)) × Option PyError :=
  match version with
  | none => (([], []), none)
  | some current_version =>
    let latest_version := get_latest_version rawTarget
    if current_version ≠ latest_version then
      (([Instruction.ota 300], []), none)
    else
      (([Instruction.timeSync now], []), some .typeError)

/-! ## `emailer/app.py` -/

/-- The contact details resolved from the external directory;
`get_user_details_by_cognito_id` defaults both fields to the empty string
when the user or the attribute is absent. -/
structure UserDetails where
  given_name : String
  email_address : String
deriving DecidableEq, Repr

/-- Modelled from the spec: the repository file `email_templates.py` is not
under `src/`; the spec describes `sensor_error` as a fixed template whose
body substitutes the customer name for a placeholder token.  Only
non-emptiness of the body matters to the control flow. -/
def sensor_error_body : String :=
  "Dear ###, an error occurred with a sensor on your device."

/-- Outcome of the external SES send call. -/
inductive SendResult
  | success
  | failure
deriving DecidableEq, Repr

/-- Outcome of the external SQS delete call. -/
inductive AckResult
  | success
  | clientError
deriving DecidableEq, Repr

/-- `send_email`: only when both the given name and the address are
non-empty, and the template body is non-empty, is a send attempted; a failed
send raises out of the function, a successful one returns the destination
sent to. -/
def send_email (details : UserDetails) (ses : SendResult) :
    Except PyError (List String) :=
  if details.given_name ≠ "" ∧ details.email_address ≠ "" then
    if sensor_error_body ≠ "" then
      match ses with
      | .success => .ok [details.email_address]
      | .failure => .error .clientError
    else .ok []
  else .ok []

/-- `delete_sqs_message`: deletes only when the record has a receipt handle;
a `ClientError` from the delete is caught and logged.  Returns whether the
message was actually removed from the queue. -/
def delete_sqs_message (hasReceiptHandle : Bool) (ack : AckResult) : Bool :=
  if hasReceiptHandle then
    match ack with
    | .success => true
    | .clientError => false
  else false

/-- What one loop iteration of the emailer `lambda_handler` did to a record:
which addresses were emailed and whether the queue message was removed. -/
structure EmailTrace where
  sent : List String
  deleted : Bool
deriving DecidableEq, Repr

/-- One iteration of the emailer `lambda_handler` loop for a record with a
receipt handle: resolve details (external, passed in), `send_email`, then
`delete_sqs_message`.  An exception from the send propagates, so the delete
never runs and the message stays on the queue. -/
def emailer_process_record (details : UserDetails) (ses : SendResult)
    (ack : AckResult) : Except PyError EmailTrace :=
  match send_email details ses with
  | .error e => .error e
  | .ok sent => .ok ⟨sent, delete_sqs_message true ack⟩

/-! ## Query lemmas -/

theorem head?_take_one {α : Type} (l : List α) : (l.take 1).head? = l.head? := by
  cases l <;> rfl

theorem getLast?_eq_of_max {l : List StoredReading}
    (hsort : l.Pairwise (fun a b => a.timestamp < b.timestamp))
    {prev : StoredReading} (hmem : prev ∈ l)
    (hmax : ∀ r ∈ l, r.timestamp ≤ prev.timestamp) :
    l.getLast? = some prev := by
  have hne : l ≠ [] := by rintro rfl; exact absurd hmem (List.not_mem_nil prev)
  rw [List.getLast?_eq_getLast l hne]
  congr 1
  have hsplit := List.dropLast_append_getLast hne
  have hcross := (List.pairwise_append.mp (hsplit ▸ hsort)).2.2
  have hlastmem := List.getLast_mem hne
  rcases (List.mem_append.mp (hsplit ▸ hmem)) with hin | hin
  · exact absurd (hmax _ hlastmem)
      (not_le.mpr (hcross prev hin _ (List.mem_singleton_self _)))
  · exact (List.mem_singleton.mp hin).symm

theorem get_previous_sensor_data_eq_none {store : List StoredReading} {ts : Int}
    (h : ∀ r ∈ store, ¬ r.timestamp < ts) :
    get_previous_sensor_data store ts = none := by
  unfold get_previous_sensor_data queryDesc
  have : store.filter (fun r => decide (r.timestamp < ts)) = [] :=
    List.filter_eq_nil_iff.mpr (fun a ha => by simpa using h a ha)
  rw [this]
  rfl

theorem get_previous_sensor_data_eq_some {store : List StoredReading} {ts : Int}
    (hsort : store.Pairwise (fun a b => a.timestamp < b.timestamp))
    {prev : StoredReading} (hmem : prev ∈ store) (hlt : prev.timestamp < ts)
    (hmax : ∀ r ∈ store, r.timestamp < ts → r.timestamp ≤ prev.timestamp) :
    get_previous_sensor_data store ts = some prev := by
  unfold get_previous_sensor_data queryDesc
  rw [head?_take_one, List.head?_reverse]
  exact getLast?_eq_of_max
    (hsort.sublist (List.filter_sublist store))
    (List.mem_filter.mpr ⟨hmem, by simpa using hlt⟩)
    (fun r hr => hmax r (List.mem_of_mem_filter hr)
      (by simpa using List.of_mem_filter hr))

/-! ## Claim theorems -/

/-- C1: refuted on the code.  The validity check applies Python `in range`
directly to the decimal sensor values, so a non-integral reading inside the
bounds is classified invalid: with bounds `[0, 85)` for temperature and
`[0, 100)` for humidity, the reading `temp = 22.2 = 111/5`, `hum = 67`
satisfies `T_low ≤ t < T_high` and `H_low ≤ h < H_high` yet
`check_for_errors` reports an error — contradicting the claimed
boundary-policy equivalence for possibly non-integer decimal values. -/
theorem C1_nonintegral_in_bounds_reading_flagged :
    ((0:ℚ) ≤ 111/5 ∧ (111/5:ℚ) < 85 ∧ (0:ℚ) ≤ 67 ∧ (67:ℚ) < 100) ∧
    check_for_errors ⟨0, 85, 0, 100⟩ ⟨111/5, 67⟩ =
      (true, "An error occurred with a sensor") := by
  decide

/-- C2: refuted on the code.  The notifier tests `len(new_msg) > 0` on the
raw DynamoDB attribute-value dict `{'S': ...}` (always of length 1), not on
the message string, so a modification clearing a non-empty `error_msg` to
the empty string still emits a Notification Request — the claim says such a
clear never emits one. -/
theorem C2_clear_to_empty_still_notifies :
    notify_lambda_handler
        [⟨"MODIFY", some "An error occurred with a sensor", some "", "U"⟩] =
      Except.ok ["U"] := by
  decide

/-- C3: refuted on the code.  On the invalid-reading path the handler reads
`user_mapping['device_id']`, but mapping items carry the attribute
`deviceID` (as the valid path and the stream records show), so the scenario
of the claim — reading `{temp: 90, hum: 50}` with upper temperature bound 85
for device `D` mapped to user `U` — raises `KeyError('device_id')` before
any write; the Mapping Entry never receives the error message. -/
theorem C3_error_write_path_raises_keyError :
    error_check_lambda_handler ⟨0, 85, 0, 100⟩
        [⟨[("userID", "U"), ("deviceID", "D"), ("error_msg", "")]⟩]
        "iot/data/1.0.0/D" (some 90) (some 50) =
      Except.error (PyError.keyError "device_id") := by
  decide

/-- C8: refuted on the code.  On a version mismatch the handler does issue
exactly one OTA instruction with a 300-second credential; but on a match,
after publishing the time-sync instruction it calls
`get_user_mapping_by_device_id()` with no argument, raising `TypeError`, so
the reported version is never persisted (the update helper would anyway
write `error_msg` with an unbound `:error_msg` placeholder). -/
theorem C8_version_match_raises_before_persisting :
    ota_lambda_handler "1.0.0\n" 1000 (some "1.0.0") =
      (([Instruction.timeSync 1000], []), some PyError.typeError) ∧
    ota_lambda_handler "1.0.0\n" 1000 (some "2.0.0") =
      (([Instruction.ota 300], []), none) := by
  decide

/-- C10: the notifier's `lambda_handler` reads `event['Records'][0]` only,
so its outcome on any batch equals its outcome on the batch containing just
the first record; the records after the first never produce a Notification
Request, regardless of their content. -/
theorem C10_only_first_record_examined (r : StreamRecord)
    (rest : List StreamRecord) :
    notify_lambda_handler (r :: rest) = notify_lambda_handler [r] := rfl

/-- C4: for an incoming reading at time `t` over a device partition stored
in ascending timestamp order: with no stored reading earlier than `t` no
rollup is attempted; when the most recent earlier reading `prev` exists,
no rollup is attempted if `t` and `prev` fall in the same hour bucket, and
exactly one rollup attempt — fetching the hour of `prev` — is made if `t`'s
bucket is strictly later. -/
theorem C4_hour_boundary_detection (store : List StoredReading) (t : Int)
    (hsort : store.Pairwise (fun a b => a.timestamp < b.timestamp)) :
    ((∀ r ∈ store, ¬ r.timestamp < t) → two_week_update_check store t = none) ∧
    (∀ prev ∈ store, prev.timestamp < t →
      (∀ r ∈ store, r.timestamp < t → r.timestamp ≤ prev.timestamp) →
      ((Int.fdiv t 3600 = Int.fdiv prev.timestamp 3600 →
          two_week_update_check store t = none) ∧
       (Int.fdiv prev.timestamp 3600 < Int.fdiv t 3600 →
          two_week_update_check store t =
            some (get_last_hour_of_sensor_data store
              (Int.fdiv prev.timestamp 3600 * 3600)
              (Int.fdiv prev.timestamp 3600 * 3600 + 3600))))) := by
  constructor
  · intro hnone
    unfold two_week_update_check
    rw [get_previous_sensor_data_eq_none hnone]
  · intro prev hmem hlt hmax
    have hprev := get_previous_sensor_data_eq_some hsort hmem hlt hmax
    constructor
    · intro heq
      unfold two_week_update_check
      rw [hprev]
      simp [heq]
    · intro hgt
      unfold two_week_update_check
      rw [hprev]
      simp [hgt]

/-- Witness for C4 at a concrete store: one stored reading at 3600, the
incoming reading at 7200 crosses the hour boundary from bucket 1 to
bucket 2, so exactly one rollup attempt over `[3600, 7200]` is made. -/
theorem C4_hour_boundary_detection_witness :
    two_week_update_check [⟨3600, 20, 50⟩] 7200 =
      some (get_last_hour_of_sensor_data [⟨3600, 20, 50⟩] 3600 7200) := by
  have h := (C4_hour_boundary_detection [⟨3600, 20, 50⟩] 7200
    (by simp)).2 ⟨3600, 20, 50⟩ (by simp) (by decide)
    (by intro r hr _; simp at hr; rw [hr])
  exact h.2 (by decide)

/-- C5: counterexample to the claim as stated.  The fetch uses DynamoDB
`between`, which is inclusive at both ends: with readings stored at 3600 and
at 7200 and the incoming reading at `t = 7200`, the rollup for the previous
hour bucket `h = 1` fetches the reading whose timestamp is exactly
`h*3600 + 3600 = 7200` — the claim says such a reading is never
included. -/
theorem C5_hour_end_reading_is_included :
    two_week_update_check [⟨3600, 20, 50⟩, ⟨7200, 21, 51⟩] 7200 =
      some [⟨7200, 21, 51⟩, ⟨3600, 20, 50⟩] ∧
    (⟨7200, 21, 51⟩ : StoredReading) ∈
      [(⟨7200, 21, 51⟩ : StoredReading), ⟨3600, 20, 50⟩] ∧
    (7200 : Int) = 1 * 3600 + 3600 := by
  decide

/-- C5 as amended: when a rollup is attempted for the previous hour bucket
`h`, the fetched set holds at most 60 readings, every fetched reading has
its timestamp in the *closed* interval `[h*3600, h*3600 + 3600]` (the fetch
uses inclusive `between`, so a stored reading with timestamp exactly
`h*3600 + 3600` is included), and when at most 60 stored readings lie in
that closed interval the fetched set is exactly the stored readings in the
closed interval. -/
theorem C5_fetch_window_closed_interval (store : List StoredReading)
    (t : Int) (fetched : List StoredReading) (prev : StoredReading)
    (hprev : get_previous_sensor_data store t = some prev)
    (hroll : two_week_update_check store t = some fetched) :
    fetched.length ≤ 60 ∧
    (∀ r ∈ fetched,
      Int.fdiv prev.timestamp 3600 * 3600 ≤ r.timestamp ∧
      r.timestamp ≤ Int.fdiv prev.timestamp 3600 * 3600 + 3600) ∧
    ((store.filter (fun r =>
        decide (Int.fdiv prev.timestamp 3600 * 3600 ≤ r.timestamp) &&
        decide (r.timestamp ≤ Int.fdiv prev.timestamp 3600 * 3600 + 3600))).length ≤ 60 →
      ∀ r, r ∈ fetched ↔ (r ∈ store ∧
        Int.fdiv prev.timestamp 3600 * 3600 ≤ r.timestamp ∧
        r.timestamp ≤ Int.fdiv prev.timestamp 3600 * 3600 + 3600)) := by
  unfold two_week_update_check at hroll
  rw [hprev] at hroll
  by_cases hgt : Int.fdiv prev.timestamp 3600 < Int.fdiv t 3600
  · simp only [if_pos hgt, Option.some.injEq] at hroll
    subst hroll
    unfold get_last_hour_of_sensor_data queryDesc
    refine ⟨List.length_take_le 60 _, ?_, ?_⟩
    · intro r hr
      have hr2 : r ∈ (store.filter (fun r =>
          decide (Int.fdiv prev.timestamp 3600 * 3600 ≤ r.timestamp) &&
          decide (r.timestamp ≤ Int.fdiv prev.timestamp 3600 * 3600 + 3600))) :=
        List.mem_reverse.mp (List.take_subset 60 _ hr)
      simpa using List.of_mem_filter hr2
    · intro hcount r
      rw [List.take_of_length_le (by simpa using hcount)]
      rw [List.mem_reverse, List.mem_filter]
      simp
  · simp [if_neg hgt] at hroll

/-- Witness for C5: at the concrete two-reading store of the
counterexample, the fetched set has at most 60 readings, all inside the
closed window `[3600, 7200]`, and is exactly the stored readings in that
window. -/
theorem C5_fetch_window_closed_interval_witness :
    ([(⟨7200, 21, 51⟩ : StoredReading), ⟨3600, 20, 50⟩].length ≤ 60 ∧
     (∀ r ∈ [(⟨7200, 21, 51⟩ : StoredReading), ⟨3600, 20, 50⟩],
        Int.fdiv 3600 3600 * 3600 ≤ r.timestamp ∧
        r.timestamp ≤ Int.fdiv 3600 3600 * 3600 + 3600) ∧
     (([(⟨3600, 20, 50⟩ : StoredReading), ⟨7200, 21, 51⟩].filter (fun r =>
          decide (Int.fdiv 3600 3600 * 3600 ≤ r.timestamp) &&
          decide (r.timestamp ≤ Int.fdiv 3600 3600 * 3600 + 3600))).length ≤ 60 →
       ∀ r, r ∈ [(⟨7200, 21, 51⟩ : StoredReading), ⟨3600, 20, 50⟩] ↔
         (r ∈ [(⟨3600, 20, 50⟩ : StoredReading), ⟨7200, 21, 51⟩] ∧
          Int.fdiv 3600 3600 * 3600 ≤ r.timestamp ∧
          r.timestamp ≤ Int.fdiv 3600 3600 * 3600 + 3600))) :=
  C5_fetch_window_closed_interval
    [⟨3600, 20, 50⟩, ⟨7200, 21, 51⟩] 7200
    [⟨7200, 21, 51⟩, ⟨3600, 20, 50⟩] ⟨3600, 20, 50⟩
    (by decide) (by decide)

/-- C6: counterexample to the claimed equivalence of the two validity
tests.  The aggregator applies `int(...)` truncation before its range test
while the Error State Tracker tests the raw value, so for `temp = 22.5`,
`hum = 50` under bounds `[0, 85)` and `[0, 100)` the aggregator accepts the
point while the tracker's check reports an error. -/
theorem C6_validity_tests_differ :
    calc_inside_limits ⟨0, 85, 0, 100⟩ ⟨45/2, 50⟩ = true ∧
    (check_for_errors ⟨0, 85, 0, 100⟩ ⟨45/2, 50⟩).1 = true := by
  decide

/-- C6 as amended: the aggregator's per-point test accepts a reading iff
the `int(...)`-truncations of its temperature and humidity lie within the
bounds; this agrees with the Error State Tracker's check of §4.1 exactly on
integer-valued readings.  The written averages are the arithmetic means over
exactly the accepted subset, and an hour with no accepted reading yields no
summary. -/
theorem C6_aggregator_truncated_bounds (L : Limits) (p : ReadingEvent)
    (data : List ReadingEvent) :
    (calc_inside_limits L p = true ↔
      (L.lowerTemp ≤ pyInt p.temp ∧ pyInt p.temp < L.upperTemp ∧
       L.lowerHum ≤ pyInt p.hum ∧ pyInt p.hum < L.upperHum)) ∧
    (p.temp.den = 1 → p.hum.den = 1 →
      calc_inside_limits L p = !(check_for_errors L p).1) ∧
    (calculate_average_from_set L data = none ↔
      data.filter (calc_inside_limits L) = []) ∧
    (∀ s, calculate_average_from_set L data = some s →
      s.temp = ((data.filter (calc_inside_limits L)).map (·.temp)).sum /
        ((data.filter (calc_inside_limits L)).length : ℚ) ∧
      s.hum = ((data.filter (calc_inside_limits L)).map (·.hum)).sum /
        ((data.filter (calc_inside_limits L)).length : ℚ)) := by
  refine ⟨?_, ?_, ?_, ?_⟩
  · simp [calc_inside_limits, and_assoc]
  · intro htden hhden
    simp only [check_for_errors, calc_inside_limits, pyRangeContains, pyInt,
      htden, hhden, Int.tdiv_one, Bool.not_not]
    simp
  · constructor
    · intro h
      by_contra hne
      have hpos : 0 < (data.filter (calc_inside_limits L)).length :=
        List.length_pos.mpr hne
      simp only [calculate_average_from_set, if_pos hpos] at h
      exact absurd h (by simp)
    · intro h
      simp [calculate_average_from_set, h]
  · intro s hs
    by_cases hpos : 0 < (data.filter (calc_inside_limits L)).length
    · simp only [calculate_average_from_set, if_pos hpos,
        Option.some.injEq] at hs
      subst hs
      exact ⟨rfl, rfl⟩
    · simp only [calculate_average_from_set, if_neg hpos] at hs
      exact absurd hs (by simp)

/-- Witness for C6 at integer-valued readings: on `temp = 22`, `hum = 50`
the aggregator's test agrees with the Error State Tracker's check. -/
theorem C6_aggregator_truncated_bounds_witness :
    calc_inside_limits ⟨0, 85, 0, 100⟩ ⟨22, 50⟩ =
      !(check_for_errors ⟨0, 85, 0, 100⟩ ⟨22, 50⟩).1 :=
  (C6_aggregator_truncated_bounds ⟨0, 85, 0, 100⟩ ⟨22, 50⟩ []).2.1
    (by decide) (by decide)

/-! ## Rounding lemmas -/

theorem rat_floor_le (x : ℚ) : (Rat.floor x : ℚ) ≤ x :=
  Rat.le_floor.mp le_rfl

theorem rat_lt_floor_add_one (x : ℚ) : x < (Rat.floor x : ℚ) + 1 := by
  by_contra h
  push_neg at h
  have hle : ((Rat.floor x + 1 : Int) : ℚ) ≤ x := by push_cast; linarith
  have := Rat.le_floor.mpr hle
  omega

theorem abs_sub_roundHalfEven_le (x : ℚ) :
    |x - (roundHalfEven x : ℚ)| ≤ 1/2 := by
  have h1 := rat_floor_le x
  have h2 := rat_lt_floor_add_one x
  simp only [roundHalfEven]
  split_ifs <;> (rw [abs_le]; push_cast; constructor <;> linarith)

/-- C7: every item built by `write_two_week_data` has its temperature an
integer multiple of 1/100 within 1/200 of the average (2-decimal rounding),
its humidity an integer within 1/2 of the average (nearest-integer
rounding), its bucket timestamp the current time at write rounded down to
the hour, and its expiry that bucket timestamp plus 1209600 seconds. -/
theorem C7_written_aggregate_contract (now : Int) (summary : ReadingEvent) :
    (∃ k : Int, (write_two_week_data now summary).temp = (k : ℚ) / 100) ∧
    |summary.temp - (write_two_week_data now summary).temp| ≤ 1/200 ∧
    |summary.hum - ((write_two_week_data now summary).hum : ℚ)| ≤ 1/2 ∧
    3600 ∣ (write_two_week_data now summary).timestamp ∧
    (write_two_week_data now summary).timestamp ≤ now ∧
    now < (write_two_week_data now summary).timestamp + 3600 ∧
    (write_two_week_data now summary).expiretimestamp =
      (write_two_week_data now summary).timestamp + 1209600 := by
  refine ⟨⟨roundHalfEven (100 * summary.temp), rfl⟩, ?_, ?_, ?_, ?_, ?_, ?_⟩
  · simp only [write_two_week_data, quantize2dp]
    have h := abs_sub_roundHalfEven_le (100 * summary.temp)
    have heq : summary.temp - (roundHalfEven (100 * summary.temp) : ℚ) / 100 =
        (100 * summary.temp - (roundHalfEven (100 * summary.temp) : ℚ)) / 100 := by
      ring
    rw [heq, abs_div]
    have h100 : |(100:ℚ)| = 100 := by norm_num
    rw [h100]
    linarith
  · simp only [write_two_week_data]
    exact abs_sub_roundHalfEven_le summary.hum
  · exact ⟨Int.fdiv now 3600, by simp [write_two_week_data, round_time_down_to_hour]; ring⟩
  · simp only [write_two_week_data, round_time_down_to_hour]
    rw [Int.fdiv_eq_ediv _ (by norm_num)]
    exact Int.ediv_mul_le now (by norm_num)
  · simp only [write_two_week_data, round_time_down_to_hour]
    rw [Int.fdiv_eq_ediv _ (by norm_num)]
    have := Int.lt_ediv_add_one_mul_self now (show (0:Int) < 3600 by norm_num)
    linarith
  · simp only [write_two_week_data]
    norm_num

/-- C9: for every processed notification request — with the externally
resolved contact details, SES send outcome and SQS delete outcome as
parameters — an empty given name or address sends no email yet still runs
the acknowledgment; a send failure propagates before the acknowledgment so
the request stays on the queue; a successful send is followed by the
acknowledgment, and a failing acknowledgment is swallowed (the invocation
still succeeds, the message merely stays). -/
theorem C9_dispatcher_ack_policy (details : UserDetails) (ses : SendResult)
    (ack : AckResult) :
    ((details.given_name = "" ∨ details.email_address = "") →
      ∃ tr, emailer_process_record details ses ack = Except.ok tr ∧
        tr.sent = [] ∧ (ack = AckResult.success → tr.deleted = true)) ∧
    (details.given_name ≠ "" → details.email_address ≠ "" →
      ses = SendResult.failure →
      emailer_process_record details ses ack =
        Except.error PyError.clientError) ∧
    (details.given_name ≠ "" → details.email_address ≠ "" →
      ses = SendResult.success →
      ∃ tr, emailer_process_record details ses ack = Except.ok tr ∧
        tr.sent = [details.email_address] ∧
        (ack = AckResult.success → tr.deleted = true) ∧
        (ack = AckResult.clientError → tr.deleted = false)) := by
  refine ⟨?_, ?_, ?_⟩
  · intro hempty
    have hcond : ¬ (details.given_name ≠ "" ∧ details.email_address ≠ "") := by
      rcases hempty with h | h <;> simp [h]
    refine ⟨⟨[], delete_sqs_message true ack⟩, ?_, rfl, ?_⟩
    · simp [emailer_process_record, send_email, if_neg hcond]
    · intro hack
      simp [delete_sqs_message, hack]
  · intro hn he hses
    subst hses
    simp [emailer_process_record, send_email, if_pos (And.intro hn he),
      sensor_error_body]
  · intro hn he hses
    subst hses
    refine ⟨⟨[details.email_address], delete_sqs_message true ack⟩, ?_, rfl, ?_, ?_⟩
    · simp [emailer_process_record, send_email, if_pos (And.intro hn he),
        sensor_error_body]
    · intro hack
      simp [delete_sqs_message, hack]
    · intro hack
      simp [delete_sqs_message, hack]

/-- Witness for C9: a complete profile, a successful send and a successful
acknowledgment yield one email to the stored address and a removed queue
message. -/
theorem C9_dispatcher_ack_policy_witness :
    ∃ tr, emailer_process_record ⟨"N", "a@b.c"⟩ SendResult.success
        AckResult.success = Except.ok tr ∧
      tr.sent = ["a@b.c"] ∧
      (AckResult.success = AckResult.success → tr.deleted = true) ∧
      (AckResult.success = AckResult.clientError → tr.deleted = false) :=
  (C9_dispatcher_ack_policy ⟨"N", "a@b.c"⟩ SendResult.success
    AckResult.success).2.2 (by decide) (by decide) rfl

end IoTCloud
